import Mathlib

/-!
Verification of the tool-orchestration core of the MCP workshop client
repository.  The Lean definitions below are a shallow embedding of the
Python sources:

* `getGptResponse`  embeds `GptCall.get_gpt_response`  (src/gpt_utils.py),
* `processQueryAzure` embeds `MCPStdioClient.process_query` (src/mcp_client_azure.py),
* `processQueryOllama` embeds `MCPOllamaClient.process_query`
  (src/ollama/mcp_client_ollama.py), including its tagged-line parameter
  parser and numeric coercion.

Python strings are modelled as Lean `String` processed over their character
lists (ASCII assumptions are noted where Python is Unicode-aware).  Python
`float` values produced by `float(...)` on decimal literals are modelled by
the exact decimal the literal spells, as a (num, scale) pair denoting
num / 10 ^ scale; the program never computes with these values, it only
stores and forwards them.  The external tool
session and the model backend are parameters: functions returning
`Except`, an `.error` modelling a raised Python exception.
-/

namespace MCPWorkshop

/-- Python `str.strip` whitespace set (ASCII part): space, tab, newline,
carriage return, vertical tab, form feed. -/
def isPySpace (c : Char) : Bool :=
  c == ' ' || c == '\t' || c == '\n' || c == '\r' || c == '\x0b' || c == '\x0c'

/-- Character-list version of Python `startswith`: does the second list
start with the first? -/
def startsWithChars : List Char → List Char → Bool
  | [], _ => true
  | _ :: _, [] => false
  | p :: ps, c :: cs => p == c && startsWithChars ps cs

/-- Character-list version of Python `in` on strings: does the second list
contain the first as a contiguous run? -/
def hasSubChars (p : List Char) : List Char → Bool
  | [] => p.isEmpty
  | c :: rest => startsWithChars p (c :: rest) || hasSubChars p rest

/-- Python `pat in s` substring test. -/
def hasSubStr (s pat : String) : Bool := hasSubChars pat.data s.data

/-- Python `s.startswith(pat)`. -/
def strStartsWith (s pat : String) : Bool := startsWithChars pat.data s.data

/-- Python `s.strip()` on a character list. -/
def stripChars (l : List Char) : List Char :=
  ((l.dropWhile isPySpace).reverse.dropWhile isPySpace).reverse

/-- Python `s.strip()`. -/
def stripStr (s : String) : String := String.mk (stripChars s.data)

/-- Python `s.lower()` (ASCII letters). -/
def lowerStr (s : String) : String := String.mk (s.data.map Char.toLower)

/-- Python `s.split(chr(10))`: split on every newline, keeping empty pieces. -/
def splitLinesAux : List Char → List Char → List (List Char)
  | [], acc => [acc.reverse]
  | '\n' :: rest, acc => acc.reverse :: splitLinesAux rest []
  | c :: rest, acc => splitLinesAux rest (c :: acc)

/-- Python `s.split(chr(10))` as a list of strings. -/
def splitLines (s : String) : List String := (splitLinesAux s.data []).map String.mk

/-- Python `s.replace(pat, empty)`: delete every non-overlapping occurrence
of `pat`, scanning left to right.  The fuel argument is the length of the
remaining input, which bounds the number of steps; `pat` is non-empty at
every call site. -/
def removeOccAux (pat : List Char) : Nat → List Char → List Char
  | _, [] => []
  | 0, l => l
  | fuel + 1, c :: rest =>
    if startsWithChars pat (c :: rest) then
      removeOccAux pat fuel ((c :: rest).drop pat.length)
    else
      c :: removeOccAux pat fuel rest

/-- Python `s.replace(pat, empty string)`. -/
def removeOcc (s pat : String) : String :=
  String.mk (removeOccAux pat.data s.data.length s.data)

/-- Numeric value of an ASCII digit character. -/
def digitVal (c : Char) : Nat := c.toNat - 48

/-- Remaining digits of a Python integer literal, allowing a single
underscore between digits (as Python `int` does), accumulating the value. -/
def digitsRest : List Char → Nat → Option Nat
  | [], acc => some acc
  | '_' :: c :: rest, acc =>
    if c.isDigit then digitsRest rest (acc * 10 + digitVal c) else none
  | c :: rest, acc =>
    if c.isDigit then digitsRest rest (acc * 10 + digitVal c) else none

/-- Non-empty digit group of a Python integer literal. -/
def digitsStart : List Char → Option Nat
  | [] => none
  | c :: rest => if c.isDigit then digitsRest rest (digitVal c) else none

/-- Python `int(s)` on an already-stripped string: optional sign followed by
a non-empty digit group (ASCII digits, underscores between digits). -/
def pyIntParse (s : String) : Option Int :=
  match s.data with
  | '+' :: rest => (digitsStart rest).map (fun n => (n : Int))
  | '-' :: rest => (digitsStart rest).map (fun n => -(n : Int))
  | l => (digitsStart l).map (fun n => (n : Int))

/-- Fractional digit group: like `digitsRest` but also counting the digits,
so the decimal scale is known. -/
def fracRest : List Char → Nat → Nat → Option (Nat × Nat)
  | [], acc, cnt => some (acc, cnt)
  | '_' :: c :: rest, acc, cnt =>
    if c.isDigit then fracRest rest (acc * 10 + digitVal c) (cnt + 1) else none
  | c :: rest, acc, cnt =>
    if c.isDigit then fracRest rest (acc * 10 + digitVal c) (cnt + 1) else none

/-- Mantissa of a Python float literal: digits, optionally split by one
decimal point, with at least one digit present overall.  The result is the
pair (value, scale) of the digit string with the point removed and the
count of fractional digits, denoting the exact decimal value / 10 ^ scale
(a representation that avoids non-computing rational normalization). -/
def parseMantissa (l : List Char) : Option (Nat × Nat) :=
  match l.span (fun c => c != '.') with
  | (before, []) => (digitsStart before).map (fun n => (n, 0))
  | (before, _ :: after) =>
    if after.contains '.' then none
    else
      match before, after with
      | [], [] => none
      | [], c :: rest =>
        if c.isDigit then fracRest rest (digitVal c) 1 else none
      | b, [] => (digitsStart b).map (fun n => (n, 0))
      | b, c :: rest =>
        match digitsStart b with
        | none => none
        | some ip =>
          if c.isDigit then
            (fracRest rest (digitVal c) 1).map
              (fun p => (ip * 10 ^ p.2 + p.1, p.2))
          else none

/-- Exponent part of a Python float literal (after the e marker):
optional sign then a non-empty digit group. -/
def parseExpChars : List Char → Option Int
  | [] => none
  | '+' :: rest => (digitsStart rest).map (fun n => (n : Int))
  | '-' :: rest => (digitsStart rest).map (fun n => -(n : Int))
  | l => (digitsStart l).map (fun n => (n : Int))

/-- Scale a (value, scale) decimal by a power of ten given as an integer
exponent: a non-negative exponent multiplies the value, a negative one
deepens the scale. -/
def applyExp (p : Nat × Nat) (e : Int) : Nat × Nat :=
  if 0 ≤ e then (p.1 * 10 ^ e.toNat, p.2) else (p.1, p.2 + (-e).toNat)

/-- Apply an optional leading minus sign to the decimal value. -/
def condSign (neg : Bool) (n : Nat) : Int :=
  if neg then -(n : Int) else (n : Int)

/-- Python `float(s)` on an already-stripped string, restricted to finite
decimal literals: optional sign, mantissa, optional exponent.  The special
spellings inf and nan contain no decimal point and are never passed to this
function by `coerceValue`.  The value is the exact rational the literal
denotes. -/
def pyFloatBody (neg : Bool) (body : List Char) : Option (Int × Nat) :=
  match body.span (fun c => c != 'e' && c != 'E') with
  | (mant, []) => (parseMantissa mant).map (fun p => (condSign neg p.1, p.2))
  | (mant, _ :: etail) =>
    match parseMantissa mant, parseExpChars etail with
    | some p, some ex => some (condSign neg (applyExp p ex).1, (applyExp p ex).2)
    | _, _ => none

/-- Python `float(s)` split into sign and body; the result (num, scale)
denotes the exact decimal num / 10 ^ scale. -/
def pyFloatParse (s : String) : Option (Int × Nat) :=
  match s.data with
  | '+' :: rest => pyFloatBody false rest
  | '-' :: rest => pyFloatBody true rest
  | l => pyFloatBody false l

/-- Value types a parsed parameter can carry, mirroring the Python types
produced by the tagged-line parameter coercion: `int`, `float` — carried as
the pair (num, scale) denoting the exact decimal num / 10 ^ scale the
literal spells — or `str`. -/
inductive PyVal
  | int (n : Int)
  | float (num : Int) (scale : Nat)
  | str (s : String)
deriving DecidableEq

/-- Coercion of one raw parameter value, from
src/ollama/mcp_client_ollama.py: the value is stripped; if it contains no
decimal point, Python `int` is tried; otherwise Python `float` is tried; a
`ValueError` in either case keeps the stripped value as a string. -/
def coerceValue (raw : String) : PyVal :=
  let v := stripStr raw
  if v.data.contains '.' then
    match pyFloatParse v with
    | some p => PyVal.float p.1 p.2
    | none => PyVal.str v
  else
    match pyIntParse v with
    | some n => PyVal.int n
    | none => PyVal.str v

/-- Python dict assignment `d[k] = v` on an insertion-ordered association
list: overwrite in place when the key exists, else append. -/
def dictInsert (d : List (String × PyVal)) (k : String) (v : PyVal) :
    List (String × PyVal) :=
  if d.any (fun p => p.1 == k) then
    d.map (fun p => if p.1 == k then (k, v) else p)
  else d ++ [(k, v)]

/-- Word character of the regular expression class backslash-w (ASCII):
letters, digits, underscore. -/
def isWordChar (c : Char) : Bool := c.isAlphanum || c == '_'

/-- Scan embedding `re.findall` for the pattern of one word group, an
equals sign, and one non-comma group, as used on a PARAMETERS line.  At a
word character the maximal word run is taken; the match succeeds when an
equals sign follows and at least one non-comma character follows that, the
value group being the maximal non-comma run (both groups are greedy and no
backtracking can help, since a word character is never an equals sign and
the value group ends the pattern).  On a failed match the scan advances one
character; after a match it resumes past the match.  The fuel argument is
the length of the remaining input, an upper bound on the steps needed. -/
def findallAux : Nat → List Char → List (String × String)
  | 0, _ => []
  | _, [] => []
  | fuel + 1, c :: rest =>
    if isWordChar c then
      match (c :: rest).span isWordChar with
      | (w, '=' :: rest2) =>
        match rest2.span (fun ch => ch != ',') with
        | ([], _) => findallAux fuel rest
        | (v, rest3) => (String.mk w, String.mk v) :: findallAux fuel rest3
      | _ => findallAux fuel rest
    else findallAux fuel rest

/-- All key=value matches of a PARAMETERS string, in order. -/
def findallParams (s : String) : List (String × String) :=
  findallAux s.data.length s.data

/-- Fold the extracted key=value pairs into the parameters dict, coercing
each value. -/
def buildParamsInto (d : List (String × PyVal)) (pairs : List (String × String)) :
    List (String × PyVal) :=
  pairs.foldl (fun acc kv => dictInsert acc kv.1 (coerceValue kv.2)) d

/-- Result of scanning a model response in tagged-line mode: the last
TOOL_REQUEST line's tool name, if any, and the accumulated parameters. -/
structure TaggedParse where
  toolName : Option String
  parameters : List (String × PyVal)
deriving DecidableEq

/-- Tagged-line scan from `MCPOllamaClient.process_query`: the response is
split on newlines; a line whose stripped form starts with TOOL_REQUEST:
sets the tool name to the line with every marker occurrence deleted and the
remainder stripped; a line whose stripped form starts with PARAMETERS:
extends the parameters dict from the key=value matches of the similarly
de-markered, stripped remainder.  The source wraps the per-line parameter
extraction in a handler that would reset the dict, but every exception the
extraction can raise (`ValueError` from `int` or `float`) is already caught
per key, so that handler is unreachable. -/
def parseTagged (responseContent : String) : TaggedParse :=
  (splitLines responseContent).foldl
    (fun acc line =>
      if strStartsWith (stripStr line) "TOOL_REQUEST:" then
        { acc with toolName := some (stripStr (removeOcc line "TOOL_REQUEST:")) }
      else if strStartsWith (stripStr line) "PARAMETERS:" then
        let paramsStr := stripStr (removeOcc line "PARAMETERS:")
        { acc with parameters := buildParamsInto acc.parameters (findallParams paramsStr) }
      else acc)
    ⟨none, []⟩

/-- Return value of `GptCall.get_gpt_response` in src/gpt_utils.py: either
the generated text (a Python `str`) or the Python empty list, the literal
`return []` reached after the retry loop — an empty list, not empty text. -/
inductive GptResult
  | text (s : String)
  | emptyList
deriving DecidableEq

/-- One run of `get_gpt_response` together with its observable effects:
the number of backend create calls made and the list of sleep durations, in
seconds, in order. -/
structure GptRun where
  result : GptResult
  attempts : Nat
  sleeps : List Nat
deriving DecidableEq

/-- Loop body of `get_gpt_response`.  The source loops `while attempts < 3`
around one backend call per iteration, sleeping 2 seconds after every
failure; the fuel argument is the number of iterations the guard still
allows (3 minus attempts), so fuel 0 is the loop exit that returns the
empty list.  The backend is indexed by the attempt counter, which the
source feeds into the seed (42 plus attempts); an `.error` models a raised
exception. -/
def getGptLoop (backend : Nat → Except String String) :
    Nat → Nat → Nat → List Nat → GptRun
  | 0, _, calls, sleeps => ⟨GptResult.emptyList, calls, sleeps⟩
  | fuel + 1, attempts, calls, sleeps =>
    match backend attempts with
    | Except.ok content => ⟨GptResult.text content, calls + 1, sleeps⟩
    | Except.error _ => getGptLoop backend fuel (attempts + 1) (calls + 1) (sleeps ++ [2])

/-- Embedding of `GptCall.get_gpt_response`: up to 3 attempts starting at
attempt 0 with no calls made and no sleeps taken. -/
def getGptResponse (backend : Nat → Except String String) : GptRun :=
  getGptLoop backend 3 0 0 []

/-- Rendering of a `get_gpt_response` result inside an f-string: a string
renders as itself, the empty list renders as its Python `str` form. -/
def fmtGptResult : GptResult → String
  | GptResult.text s => s
  | GptResult.emptyList => "[]"

/-- One tool of the catalog fetched at connect time.  The source also
carries an input schema, used only to build the dead `available_tools`
value in the Azure client, so it is omitted here. -/
structure Tool where
  name : String
  description : String
deriving DecidableEq

/-- One chat message. -/
structure Message where
  role : String
  content : String
deriving DecidableEq

/-- The external tool session, reduced to the one operation the query path
uses: `call_tool`, whose `.error` models a raised exception carrying the
Python `str(e)` text. -/
structure Session where
  callTool : String → List (String × PyVal) → Except String String

/-- Client state that persists across queries: the optional session and the
tool catalog, both written only at connect time. -/
structure ClientState where
  session : Option Session
  tools : List Tool

/-- Python `join` on newline of a list of strings. -/
def joinStrings : List String → String
  | [] => ""
  | [s] => s
  | s :: rest => s ++ "\n" ++ joinStrings rest

/-- The final assembly of `process_query`: keep the truthy (non-empty)
segments and join them with newlines. -/
def joinSegs (segs : List String) : String :=
  joinStrings (segs.filter (fun s => s != ""))

/-- One observed run of `process_query`: the returned text, the client
state after the call, the number of gateway invocations (calls to
`call_gpt` or `call_ollama`, each of which is one whole retry loop for the
Azure client), the tool invocations attempted with their arguments, and
the `final_text` segment list that was joined into the output on the
normal path. -/
structure RunOut where
  output : String
  state : ClientState
  gatewayCalls : Nat
  toolCalls : List (String × List (String × PyVal))
  segments : List String

/-- Catalog rendering shared by both clients: one line per tool. -/
def renderToolsInfo (tools : List Tool) : String :=
  joinStrings (tools.map (fun t => "- " ++ t.name ++ ": " ++ t.description))

/-- System prompt of the Azure client. -/
def azureSystemMessage (tools : List Tool) : String :=
  "You are a helpful assistant that helps users with queries. \nYou have access to the following tools:\n"
    ++ renderToolsInfo tools
    ++ "\n\nIf you need to use any of these tools to answer the user\x27s question, please specify which tool you want to use and what parameters you need."

/-- Initial message list of the Azure client (the final assignment in the
source; an earlier two-message assignment is overwritten unused). -/
def azureMessages (tools : List Tool) (query : String) : List Message :=
  [⟨"system", azureSystemMessage tools⟩, ⟨"user", query⟩]

/-- Substring-mode detection test of the Azure client: the lower-cased tool
name occurs in the lower-cased response. -/
def azureMatches (responseContent : String) (t : Tool) : Bool :=
  hasSubChars (lowerStr t.name).data (lowerStr responseContent).data

/-- Follow-up user message embedding a tool result, shared verbatim by both
clients. -/
def toolResultMessage (toolName toolResult : String) : String :=
  "Here\x27s the result from " ++ toolName ++ ": " ++ toolResult
    ++ ". Please provide a final answer based on this information."

/-- Tool loop of `MCPStdioClient.process_query`: scan the catalog in order;
on a substring match invoke the tool with an empty parameter set.  On
success append the tool segment and the second generation and stop (the
`break` sits at the end of the `try` block); on an exception append an
error segment and continue with the remaining catalog entries (the `break`
is not reached).  Returns the appended segments, the number of gateway
calls made, and the attempted tool invocations. -/
def azureToolLoop (sess : Session) (backend : List Message → Nat → Except String String)
    (responseContent : String) (messages : List Message) :
    List Tool → List String × Nat × List (String × List (String × PyVal))
  | [] => ([], 0, [])
  | t :: rest =>
    if azureMatches responseContent t then
      match sess.callTool t.name [] with
      | Except.ok toolResult =>
        let seg := "\n[Tool: " ++ t.name ++ "]\n" ++ toolResult
        let messages2 := messages ++
          [⟨"assistant", responseContent⟩, ⟨"user", toolResultMessage t.name toolResult⟩]
        let finalResp := (getGptResponse (backend messages2)).result
        ([seg, "\n" ++ fmtGptResult finalResp], 1, [(t.name, [])])
      | Except.error e =>
        let tail := azureToolLoop sess backend responseContent messages rest
        (("\n[Error with tool " ++ t.name ++ "]: " ++ e) :: tail.1, tail.2.1,
          (t.name, []) :: tail.2.2)
    else azureToolLoop sess backend responseContent messages rest

/-- Embedding of `MCPStdioClient.process_query`.  Without a session it
returns the not-connected string before anything else runs.  The first
generation goes through the retry gateway; if it yields the empty-list
sentinel, iterating the catalog calls `lower` on a list, raising an
`AttributeError` that the outer handler turns into an error-prefixed
return — unless the catalog is empty, in which case the loop body never
runs and the join of the single falsy segment is the empty string.  On a
text result the tool loop runs and the surviving segments are joined.
Client construction and transport setup are outside this function and are
modelled as not failing. -/
def processQueryAzure (st : ClientState)
    (backend : List Message → Nat → Except String String) (query : String) : RunOut :=
  match st.session with
  | none => ⟨"Error: Not connected to an MCP server", st, 0, [], []⟩
  | some sess =>
    let messages := azureMessages st.tools query
    let firstRun := getGptResponse (backend messages)
    match firstRun.result with
    | GptResult.emptyList =>
      match st.tools with
      | [] => ⟨"", st, 1, [], []⟩
      | _ :: _ =>
        ⟨"Error processing query: \x27list\x27 object has no attribute \x27lower\x27",
          st, 1, [], []⟩
    | GptResult.text responseContent =>
      let loop := azureToolLoop sess backend responseContent messages st.tools
      let segs := responseContent :: loop.1
      ⟨joinSegs segs, st, 1 + loop.2.1, loop.2.2, segs⟩

/-- System prompt of the Ollama client. -/
def ollamaSystemMessage (tools : List Tool) : String :=
  "You are a helpful assistant that helps users with queries. \nYou have access to the following tools:\n"
    ++ renderToolsInfo tools
    ++ "\n\nIf you need to use any of these tools to answer the user\x27s question, please respond with:\nTOOL_REQUEST: <tool_name>\nPARAMETERS: <describe what parameters you need>\n\nOtherwise, provide a direct answer to the user\x27s question."

/-- Initial message list of the Ollama client. -/
def ollamaMessages (tools : List Tool) (query : String) : List Message :=
  [⟨"system", ollamaSystemMessage tools⟩, ⟨"user", query⟩]

/-- Case-insensitive catalog lookup of the parsed tool name, first match in
catalog order. -/
def findTool (tools : List Tool) (nm : String) : Option Tool :=
  tools.find? (fun t => lowerStr t.name == lowerStr nm)

/-- Embedding of `MCPOllamaClient.process_query`.  `call_ollama` performs a
single request and raises on failure, so the backend here is one `Except`
per message list; a first-call `.error` is caught by the outer handler.
When the response contains the TOOL_REQUEST marker the tagged-line scan
runs; a parsed name that matches no catalog entry leaves only the first
response.  A matched tool is invoked with the parsed parameters; the inner
handler around the invocation also wraps the second generation, so a
second-call failure is likewise rendered as a tool error segment. -/
def processQueryOllama (st : ClientState)
    (backend : List Message → Except String String) (query : String) : RunOut :=
  match st.session with
  | none => ⟨"Error: Not connected to an MCP server", st, 0, [], []⟩
  | some sess =>
    let messages := ollamaMessages st.tools query
    match backend messages with
    | Except.error e => ⟨"Error processing query: " ++ e, st, 1, [], []⟩
    | Except.ok responseContent =>
      if hasSubStr responseContent "TOOL_REQUEST:" then
        let parsed := parseTagged responseContent
        match parsed.toolName with
        | none => ⟨joinSegs [responseContent], st, 1, [], [responseContent]⟩
        | some nm =>
          match findTool st.tools nm with
          | none => ⟨joinSegs [responseContent], st, 1, [], [responseContent]⟩
          | some t =>
            match sess.callTool t.name parsed.parameters with
            | Except.error e =>
              let segs := [responseContent, "\n[Error with tool " ++ t.name ++ "]: " ++ e]
              ⟨joinSegs segs, st, 1, [(t.name, parsed.parameters)], segs⟩
            | Except.ok toolResult =>
              let seg := "\n[Tool: " ++ t.name ++ "]\n" ++ toolResult
              let messages2 := messages ++
                [⟨"assistant", responseContent⟩, ⟨"user", toolResultMessage t.name toolResult⟩]
              match backend messages2 with
              | Except.ok finalResponse =>
                let segs := [responseContent, seg, "\n" ++ finalResponse]
                ⟨joinSegs segs, st, 2, [(t.name, parsed.parameters)], segs⟩
              | Except.error e2 =>
                let segs := [responseContent, seg,
                  "\n[Error with tool " ++ t.name ++ "]: " ++ e2]
                ⟨joinSegs segs, st, 2, [(t.name, parsed.parameters)], segs⟩
      else
        ⟨joinSegs [responseContent], st, 1, [], [responseContent]⟩

/-! Helper lemmas shared by the claim theorems. -/

/-- Gateway run when attempt 0 succeeds: one call, no sleeps. -/
theorem getGptResponse_ok0 (backend : Nat → Except String String) (s : String)
    (h : backend 0 = Except.ok s) :
    getGptResponse backend = ⟨GptResult.text s, 1, []⟩ := by
  simp [getGptResponse, getGptLoop, h]

/-- Gateway run when every attempt fails: the empty-list sentinel after
three calls and three 2-second sleeps. -/
theorem getGptResponse_allFail (backend : Nat → Except String String) (err : Nat → String)
    (h : ∀ n, backend n = Except.error (err n)) :
    getGptResponse backend = ⟨GptResult.emptyList, 3, [2, 2, 2]⟩ := by
  simp [getGptResponse, getGptLoop, h]

/-- Joining a single segment gives it back, also when it is empty. -/
theorem joinSegs_single (s : String) : joinSegs [s] = s := by
  by_cases h : s = ""
  · subst h; rfl
  · simp [joinSegs, joinStrings, h]

/-- String equality with the empty string is emptiness of the data. -/
theorem str_ne_empty_of_data {s : String} (h : s.data ≠ []) : s ≠ "" := by
  intro hs
  exact h (by rw [hs])

/-- An append whose left part is non-empty is non-empty. -/
theorem append_ne_empty_left {a : String} (ha : a ≠ "") (b : String) : a ++ b ≠ "" := by
  apply str_ne_empty_of_data
  rw [String.data_append]
  intro hh
  have h1 : a.data = [] := (List.append_eq_nil.mp hh).1
  exact ha (String.ext (by rw [h1]))

/-- Every member of a joined list is a contiguous part of the join. -/
theorem mem_joinStrings_infix {s : String} :
    ∀ {l : List String}, s ∈ l → s.data <:+: (joinStrings l).data := by
  intro l h
  induction l with
  | nil => cases h
  | cons a rest ih =>
    cases rest with
    | nil =>
      rw [List.mem_singleton] at h
      subst h
      exact List.infix_rfl
    | cons b rest2 =>
      rcases List.mem_cons.mp h with h1 | h2
      · subst h1
        show s.data <:+: ((s ++ "\n") ++ joinStrings (b :: rest2)).data
        rw [String.data_append, String.data_append, List.append_assoc]
        exact (List.prefix_append s.data _).isInfix
      · have htail := ih h2
        show s.data <:+: ((a ++ "\n") ++ joinStrings (b :: rest2)).data
        rw [String.data_append]
        exact htail.trans (List.suffix_append _ _).isInfix

/-- Every non-empty member of a segment list is a contiguous part of the
joined output. -/
theorem mem_joinSegs_infix {s : String} {l : List String} (h : s ∈ l) (hne : s ≠ "") :
    s.data <:+: (joinSegs l).data := by
  apply mem_joinStrings_infix
  simp [List.mem_filter, h, hne]

/-- The text path of the Azure client, characterized for an arbitrary tool
loop outcome. -/
theorem processQueryAzure_text (st : ClientState) (sess : Session)
    (aback : List Message → Nat → Except String String) (query resp : String)
    (hsess : st.session = some sess)
    (hfirst : aback (azureMessages st.tools query) 0 = Except.ok resp) :
    processQueryAzure st aback query =
      ⟨joinSegs (resp ::
          (azureToolLoop sess aback resp (azureMessages st.tools query) st.tools).1),
        st,
        1 + (azureToolLoop sess aback resp (azureMessages st.tools query) st.tools).2.1,
        (azureToolLoop sess aback resp (azureMessages st.tools query) st.tools).2.2,
        resp ::
          (azureToolLoop sess aback resp (azureMessages st.tools query) st.tools).1⟩ := by
  obtain ⟨os, tools⟩ := st
  simp only at hsess hfirst
  subst hsess
  simp only [processQueryAzure, getGptResponse_ok0 _ _ hfirst]

/-- Tool loop under a session whose every invocation raises: every matching
tool is attempted with empty parameters and yields an error segment; no
second gateway call is made. -/
theorem azureToolLoop_allFail (sess : Session)
    (aback : List Message → Nat → Except String String) (resp : String)
    (msgs : List Message) (err : String → String)
    (hfail : ∀ n p, sess.callTool n p = Except.error (err n)) :
    ∀ tools : List Tool,
      azureToolLoop sess aback resp msgs tools =
        ((tools.filter (azureMatches resp)).map
            (fun t => "\n[Error with tool " ++ t.name ++ "]: " ++ err t.name),
          0,
          (tools.filter (azureMatches resp)).map
            (fun t => (t.name, ([] : List (String × PyVal))))) := by
  intro tools
  induction tools with
  | nil => rfl
  | cons t rest ih =>
    by_cases h : azureMatches resp t
    · simp [azureToolLoop, h, hfail, ih, List.filter_cons]
    · simp [azureToolLoop, h, ih, List.filter_cons]

/-- Tool loop when no catalog entry matches: nothing is attempted. -/
theorem azureToolLoop_noMatch (sess : Session)
    (aback : List Message → Nat → Except String String) (resp : String)
    (msgs : List Message) :
    ∀ tools : List Tool, (∀ t ∈ tools, azureMatches resp t = false) →
      azureToolLoop sess aback resp msgs tools = ([], 0, []) := by
  intro tools
  induction tools with
  | nil => intro _; rfl
  | cons t rest ih =>
    intro h
    have ht := h t (List.mem_cons_self t rest)
    simp [azureToolLoop, ht, ih (fun u hu => h u (List.mem_cons_of_mem t hu))]

/-- The first invocation attempted by the tool loop is the first matching
catalog entry, with empty parameters, whatever the session does. -/
theorem azureToolLoop_head (sess : Session)
    (aback : List Message → Nat → Except String String) (resp : String)
    (msgs : List Message) :
    ∀ (tools : List Tool) (t : Tool), tools.find? (azureMatches resp) = some t →
      (azureToolLoop sess aback resp msgs tools).2.2.head? =
        some (t.name, ([] : List (String × PyVal))) := by
  intro tools
  induction tools with
  | nil => intro t h; simp [List.find?] at h
  | cons a rest ih =>
    intro t h
    by_cases ha : azureMatches resp a
    · rw [List.find?_cons_of_pos _ ha, Option.some.injEq] at h
      subst h
      cases hc : sess.callTool a.name [] <;> simp [azureToolLoop, ha, hc]
    · rw [List.find?_cons_of_neg _ ha] at h
      simp [azureToolLoop, ha, ih t h]

/-- When the first matching entry's invocation succeeds, it is the only
invocation attempted. -/
theorem azureToolLoop_success (sess : Session)
    (aback : List Message → Nat → Except String String) (resp : String)
    (msgs : List Message) :
    ∀ (tools : List Tool) (t : Tool) (r : String),
      tools.find? (azureMatches resp) = some t →
      sess.callTool t.name [] = Except.ok r →
      (azureToolLoop sess aback resp msgs tools).2.2 =
        [(t.name, ([] : List (String × PyVal)))] := by
  intro tools
  induction tools with
  | nil => intro t r h _; simp [List.find?] at h
  | cons a rest ih =>
    intro t r h hok
    by_cases ha : azureMatches resp a
    · rw [List.find?_cons_of_pos _ ha, Option.some.injEq] at h
      subst h
      simp [azureToolLoop, ha, hok]
    · rw [List.find?_cons_of_neg _ ha] at h
      simp [azureToolLoop, ha, ih t r h hok]

/-- Updating a key in the parameters dict leaves the key set the same apart
from possibly appending the new key. -/
theorem dictInsert_keys_mem (d : List (String × PyVal)) (k2 : String) (v : PyVal)
    (k : String) :
    k ∈ (dictInsert d k2 v).map Prod.fst ↔ k ∈ d.map Prod.fst ∨ k = k2 := by
  unfold dictInsert
  split
  next hany =>
    have hkeys : (d.map (fun p => if p.1 == k2 then (k2, v) else p)).map Prod.fst
        = d.map Prod.fst := by
      rw [List.map_map]
      apply List.map_congr_left
      intro p _
      by_cases h : p.1 = k2
      · simp [h]
      · simp [h]
    rw [hkeys]
    constructor
    · exact Or.inl
    · rintro (h | rfl)
      · exact h
      · rcases List.any_eq_true.mp hany with ⟨p, hp, hpk⟩
        exact List.mem_map.mpr ⟨p, hp, by simpa using hpk⟩
  next =>
    simp [List.map_append]

/-- Folding extracted pairs into the dict preserves every key: keys present
before stay present and every extracted key ends up present, whatever its
value coerced to. -/
theorem buildParamsInto_keys :
    ∀ (pairs : List (String × String)) (d : List (String × PyVal)) (k : String),
      k ∈ (buildParamsInto d pairs).map Prod.fst ↔
        k ∈ d.map Prod.fst ∨ k ∈ pairs.map Prod.fst := by
  intro pairs
  induction pairs with
  | nil => intro d k; simp [buildParamsInto]
  | cons kv rest ih =>
    intro d k
    show k ∈ (buildParamsInto (dictInsert d kv.1 (coerceValue kv.2)) rest).map Prod.fst ↔ _
    rw [ih, dictInsert_keys_mem]
    simp only [List.map_cons, List.mem_cons]
    tauto

/-! Claim theorems. -/

/-- C3: a backend failing on every attempt makes the gateway perform
exactly 3 attempts (the `attempts` component), sleep after each, and
return the empty-result sentinel — the Python empty list — to its caller
instead of propagating or raising the underlying error (the embedding is
total and the error values are discarded). -/
theorem c3_gateway_exhaustion_sentinel (backend : Nat → Except String String)
    (err : Nat → String) (h : ∀ n, backend n = Except.error (err n)) :
    getGptResponse backend = ⟨GptResult.emptyList, 3, [2, 2, 2]⟩ :=
  getGptResponse_allFail backend err h

/-- Witness for C3 at a concretely failing backend. -/
def c3Backend : Nat → Except String String := fun _ => Except.error "backend down"

/-- Witness theorem for C3. -/
theorem c3_witness :
    (∀ n, c3Backend n = Except.error "backend down") ∧
    getGptResponse c3Backend = ⟨GptResult.emptyList, 3, [2, 2, 2]⟩ :=
  ⟨fun _ => rfl,
    c3_gateway_exhaustion_sentinel c3Backend (fun _ => "backend down") (fun _ => rfl)⟩

/-- C7: a backend failing on attempts 0 and 1 and succeeding on attempt 2
makes the gateway return the third attempt's text after exactly two
inter-attempt delays, each the fixed 2-second backoff (the `sleeps`
component records each sleep duration in order). -/
theorem c7_two_failures_then_success (backend : Nat → Except String String)
    (e0 e1 s : String) (h0 : backend 0 = Except.error e0)
    (h1 : backend 1 = Except.error e1) (h2 : backend 2 = Except.ok s) :
    getGptResponse backend = ⟨GptResult.text s, 3, [2, 2]⟩ := by
  simp [getGptResponse, getGptLoop, h0, h1, h2]

/-- Witness backend for C7: two transient failures, then success. -/
def c7Backend : Nat → Except String String :=
  fun n => if n < 2 then Except.error "transient" else Except.ok "third answer"

/-- Witness theorem for C7. -/
theorem c7_witness :
    c7Backend 0 = Except.error "transient" ∧
    c7Backend 1 = Except.error "transient" ∧
    c7Backend 2 = Except.ok "third answer" ∧
    getGptResponse c7Backend = ⟨GptResult.text "third answer", 3, [2, 2]⟩ :=
  ⟨rfl, rfl, rfl,
    c7_two_failures_then_success c7Backend "transient" "transient" "third answer" rfl rfl rfl⟩

/-- C8: with no active session, both clients return the explicit
not-connected error string at once — no gateway call, no tool invocation,
no segments, state untouched. -/
theorem c8_not_connected_short_circuit (st : ClientState)
    (aback : List Message → Nat → Except String String)
    (oback : List Message → Except String String) (query : String)
    (h : st.session = none) :
    processQueryAzure st aback query =
      ⟨"Error: Not connected to an MCP server", st, 0, [], []⟩ ∧
    processQueryOllama st oback query =
      ⟨"Error: Not connected to an MCP server", st, 0, [], []⟩ := by
  obtain ⟨os, tools⟩ := st
  simp only at h
  subst h
  exact ⟨rfl, rfl⟩

/-- Witness state for C8: a disconnected client with a non-trivial catalog. -/
def c8St : ClientState := ⟨none, [⟨"add", "adds two numbers"⟩]⟩

/-- Witness theorem for C8. -/
theorem c8_witness :
    c8St.session = none ∧
    processQueryAzure c8St (fun _ _ => Except.ok "unused") "what is 2+2" =
      ⟨"Error: Not connected to an MCP server", c8St, 0, [], []⟩ ∧
    processQueryOllama c8St (fun _ => Except.ok "unused") "what is 2+2" =
      ⟨"Error: Not connected to an MCP server", c8St, 0, [], []⟩ :=
  ⟨rfl,
    (c8_not_connected_short_circuit c8St (fun _ _ => Except.ok "unused")
      (fun _ => Except.ok "unused") "what is 2+2" rfl).1,
    (c8_not_connected_short_circuit c8St (fun _ _ => Except.ok "unused")
      (fun _ => Except.ok "unused") "what is 2+2" rfl).2⟩

/-- C6: the tagged-line parse of the specified two-line response yields the
tool name and exactly the stated typed parameters — integers where the
value has no decimal point and parses as an integer, a float for the
decimal value — and, as the further conjuncts document on representative
values, a value failing its numeric parse is retained as a string (this
includes exponent spellings such as 1e3, which have no decimal point and
fail integer parsing). -/
theorem c6_tagged_parameter_coercion :
    parseTagged "TOOL_REQUEST: compound_interest\nPARAMETERS: principal=5000, annual_rate=0.06, compounds_per_year=12, years=13" =
      ⟨some "compound_interest",
        [("principal", PyVal.int 5000), ("annual_rate", PyVal.float 6 2),
          ("compounds_per_year", PyVal.int 12), ("years", PyVal.int 13)]⟩ ∧
    coerceValue "7" = PyVal.int 7 ∧
    coerceValue "-7" = PyVal.int (-7) ∧
    coerceValue "2.5" = PyVal.float 25 1 ∧
    coerceValue ".5" = PyVal.float 5 1 ∧
    coerceValue "abc" = PyVal.str "abc" ∧
    coerceValue "1e3" = PyVal.str "1e3" ∧
    coerceValue "1.2.3" = PyVal.str "1.2.3" := by
  decide

/-- C10: neither client's query path writes the persistent state: the
session and tool catalog after any `process_query` run equal those before,
for every backend, session behavior and query, on success and on every
failure branch; the message history and parsed parameters are locals of
the run. -/
theorem c10_state_unchanged (st : ClientState)
    (aback : List Message → Nat → Except String String)
    (oback : List Message → Except String String) (query : String) :
    (processQueryAzure st aback query).state = st ∧
    (processQueryOllama st oback query).state = st := by
  constructor
  · simp only [processQueryAzure]
    repeat' split
    all_goals rfl
  · simp only [processQueryOllama]
    repeat' split
    all_goals rfl

/-- C5: when no tool is detected — no catalog name occurs as a
case-insensitive substring of the first generation (Azure client), the
response carries no TOOL_REQUEST marker (Ollama client), or the parsed
name matches no catalog entry case-insensitively (Ollama client) — no tool
invocation is attempted and the returned answer is exactly the first
generation's text. -/
theorem c5_no_tool_detected (st : ClientState) (sess : Session)
    (aback : List Message → Nat → Except String String)
    (oback : List Message → Except String String)
    (query resp nm : String)
    (hsess : st.session = some sess) :
    ((aback (azureMessages st.tools query) 0 = Except.ok resp ∧
        (∀ t ∈ st.tools, azureMatches resp t = false)) →
      (processQueryAzure st aback query).toolCalls = [] ∧
      (processQueryAzure st aback query).output = resp) ∧
    ((oback (ollamaMessages st.tools query) = Except.ok resp ∧
        hasSubStr resp "TOOL_REQUEST:" = false) →
      (processQueryOllama st oback query).toolCalls = [] ∧
      (processQueryOllama st oback query).output = resp) ∧
    ((oback (ollamaMessages st.tools query) = Except.ok resp ∧
        hasSubStr resp "TOOL_REQUEST:" = true ∧
        (parseTagged resp).toolName = some nm ∧
        findTool st.tools nm = none) →
      (processQueryOllama st oback query).toolCalls = [] ∧
      (processQueryOllama st oback query).output = resp) := by
  refine ⟨?_, ?_, ?_⟩
  · rintro ⟨hfirst, hnone⟩
    rw [processQueryAzure_text st sess aback query resp hsess hfirst,
      azureToolLoop_noMatch sess aback resp (azureMessages st.tools query) st.tools hnone]
    exact ⟨rfl, joinSegs_single resp⟩
  · rintro ⟨hfirst, hmark⟩
    obtain ⟨os, tools⟩ := st
    simp only at hsess hfirst
    subst hsess
    simp [processQueryOllama, hfirst, hmark, joinSegs_single]
  · rintro ⟨hfirst, hmark, hname, hfind⟩
    obtain ⟨os, tools⟩ := st
    simp only at hsess hfirst hfind
    subst hsess
    simp [processQueryOllama, hfirst, hmark, hname, hfind, joinSegs_single]

/-- Witness session for C5 (its behavior is irrelevant: it is never
invoked). -/
def c5Sess : Session := ⟨fun _ _ => Except.ok "tool result"⟩

/-- Witness state for C5: a connected client knowing one tool. -/
def c5St : ClientState := ⟨some c5Sess, [⟨"add", "adds two numbers"⟩]⟩

/-- Witness theorem for C5: the three no-detection branches at concrete
inputs. -/
theorem c5_witness :
    ((processQueryAzure c5St (fun _ _ => Except.ok "no tools required here") "q").toolCalls = [] ∧
      (processQueryAzure c5St (fun _ _ => Except.ok "no tools required here") "q").output =
        "no tools required here") ∧
    ((processQueryOllama c5St (fun _ => Except.ok "just a direct answer") "q").toolCalls = [] ∧
      (processQueryOllama c5St (fun _ => Except.ok "just a direct answer") "q").output =
        "just a direct answer") ∧
    ((processQueryOllama c5St (fun _ => Except.ok "TOOL_REQUEST: unknown_tool\nPARAMETERS: x=1") "q").toolCalls = [] ∧
      (processQueryOllama c5St (fun _ => Except.ok "TOOL_REQUEST: unknown_tool\nPARAMETERS: x=1") "q").output =
        "TOOL_REQUEST: unknown_tool\nPARAMETERS: x=1") :=
  ⟨(c5_no_tool_detected c5St c5Sess (fun _ _ => Except.ok "no tools required here")
      (fun _ => Except.ok "unused") "q" "no tools required here" "unused" rfl).1
    ⟨rfl, by decide⟩,
    (c5_no_tool_detected c5St c5Sess (fun _ _ => Except.ok "unused")
      (fun _ => Except.ok "just a direct answer") "q" "just a direct answer" "unused" rfl).2.1
    ⟨rfl, by decide⟩,
    (c5_no_tool_detected c5St c5Sess (fun _ _ => Except.ok "unused")
      (fun _ => Except.ok "TOOL_REQUEST: unknown_tool\nPARAMETERS: x=1") "q"
      "TOOL_REQUEST: unknown_tool\nPARAMETERS: x=1" "unknown_tool" rfl).2.2
    ⟨rfl, by decide, by decide, by decide⟩⟩

/-- C1: when a tool invocation is attempted and the session's `call_tool`
raises, both clients catch the exception, append a visible error segment
naming the tool (a contiguous part of the returned composite text), make
no second gateway call for that invocation, and return normally (the
embeddings are total functions into text).  For the Azure client the
session is assumed to raise on every call, so every matching entry is
attempted and only the single first-generation gateway call happens. -/
theorem c1_tool_failure_error_segment (st : ClientState) (sess : Session)
    (aback : List Message → Nat → Except String String)
    (oback : List Message → Except String String)
    (query resp oresp nm e : String) (err : String → String) (t u : Tool)
    (hsess : st.session = some sess) :
    ((aback (azureMessages st.tools query) 0 = Except.ok resp ∧
        (∀ n p, sess.callTool n p = Except.error (err n)) ∧
        t ∈ st.tools.filter (azureMatches resp)) →
      (processQueryAzure st aback query).gatewayCalls = 1 ∧
      ("\n[Error with tool " ++ t.name ++ "]: " ++ err t.name) ∈
        (processQueryAzure st aback query).segments ∧
      ("\n[Error with tool " ++ t.name ++ "]: " ++ err t.name).data <:+:
        (processQueryAzure st aback query).output.data ∧
      (processQueryAzure st aback query).toolCalls ≠ []) ∧
    ((oback (ollamaMessages st.tools query) = Except.ok oresp ∧
        hasSubStr oresp "TOOL_REQUEST:" = true ∧
        (parseTagged oresp).toolName = some nm ∧
        findTool st.tools nm = some u ∧
        sess.callTool u.name (parseTagged oresp).parameters = Except.error e) →
      (processQueryOllama st oback query).gatewayCalls = 1 ∧
      (processQueryOllama st oback query).segments =
        [oresp, "\n[Error with tool " ++ u.name ++ "]: " ++ e] ∧
      ("\n[Error with tool " ++ u.name ++ "]: " ++ e).data <:+:
        (processQueryOllama st oback query).output.data ∧
      (processQueryOllama st oback query).toolCalls =
        [(u.name, (parseTagged oresp).parameters)]) := by
  constructor
  · rintro ⟨hfirst, hfail, htmem⟩
    rw [processQueryAzure_text st sess aback query resp hsess hfirst,
      azureToolLoop_allFail sess aback resp (azureMessages st.tools query) err hfail st.tools]
    have hne : ("\n[Error with tool " ++ t.name ++ "]: " ++ err t.name) ≠ "" := by
      apply append_ne_empty_left
      apply append_ne_empty_left
      apply append_ne_empty_left
      decide
    have hmem : ("\n[Error with tool " ++ t.name ++ "]: " ++ err t.name) ∈
        resp :: (st.tools.filter (azureMatches resp)).map
          (fun t2 => "\n[Error with tool " ++ t2.name ++ "]: " ++ err t2.name) :=
      List.mem_cons_of_mem _ (List.mem_map.mpr ⟨t, htmem, rfl⟩)
    refine ⟨rfl, hmem, mem_joinSegs_infix hmem hne, ?_⟩
    intro hnil
    have hfil : st.tools.filter (azureMatches resp) = [] :=
      List.map_eq_nil_iff.mp hnil
    rw [hfil] at htmem
    cases htmem
  · rintro ⟨hfirst, hmark, hname, hfind, hfail⟩
    obtain ⟨os, tools⟩ := st
    simp only at hsess hfirst hfind
    subst hsess
    have hrun : processQueryOllama ⟨some sess, tools⟩ oback query =
        ⟨joinSegs [oresp, "\n[Error with tool " ++ u.name ++ "]: " ++ e],
          ⟨some sess, tools⟩, 1, [(u.name, (parseTagged oresp).parameters)],
          [oresp, "\n[Error with tool " ++ u.name ++ "]: " ++ e]⟩ := by
      simp [processQueryOllama, hfirst, hmark, hname, hfind, hfail]
    rw [hrun]
    have hne : ("\n[Error with tool " ++ u.name ++ "]: " ++ e) ≠ "" := by
      apply append_ne_empty_left
      apply append_ne_empty_left
      apply append_ne_empty_left
      decide
    have hmem : ("\n[Error with tool " ++ u.name ++ "]: " ++ e) ∈
        [oresp, "\n[Error with tool " ++ u.name ++ "]: " ++ e] := by
      simp
    exact ⟨rfl, rfl, mem_joinSegs_infix hmem hne, rfl⟩

/-- Witness session for C1: every invocation raises. -/
def c1Sess : Session := ⟨fun _ _ => Except.error "boom"⟩

/-- Witness state for C1: connected, one catalog entry. -/
def c1St : ClientState := ⟨some c1Sess, [⟨"add", "adds two numbers"⟩]⟩

/-- Witness theorem for C1: both clients at concrete inputs where the tool
invocation raises. -/
theorem c1_witness :
    ((processQueryAzure c1St (fun _ _ => Except.ok "I will use add for this") "q").gatewayCalls = 1 ∧
      ("\n[Error with tool " ++ "add" ++ "]: " ++ "boom") ∈
        (processQueryAzure c1St (fun _ _ => Except.ok "I will use add for this") "q").segments ∧
      ("\n[Error with tool " ++ "add" ++ "]: " ++ "boom").data <:+:
        (processQueryAzure c1St (fun _ _ => Except.ok "I will use add for this") "q").output.data ∧
      (processQueryAzure c1St (fun _ _ => Except.ok "I will use add for this") "q").toolCalls ≠ []) ∧
    ((processQueryOllama c1St (fun _ => Except.ok "TOOL_REQUEST: Add\nPARAMETERS: x=1") "q").gatewayCalls = 1 ∧
      (processQueryOllama c1St (fun _ => Except.ok "TOOL_REQUEST: Add\nPARAMETERS: x=1") "q").segments =
        ["TOOL_REQUEST: Add\nPARAMETERS: x=1", "\n[Error with tool " ++ "add" ++ "]: " ++ "boom"] ∧
      ("\n[Error with tool " ++ "add" ++ "]: " ++ "boom").data <:+:
        (processQueryOllama c1St (fun _ => Except.ok "TOOL_REQUEST: Add\nPARAMETERS: x=1") "q").output.data ∧
      (processQueryOllama c1St (fun _ => Except.ok "TOOL_REQUEST: Add\nPARAMETERS: x=1") "q").toolCalls =
        [("add", [("x", PyVal.int 1)])]) :=
  ⟨(c1_tool_failure_error_segment c1St c1Sess
      (fun _ _ => Except.ok "I will use add for this")
      (fun _ => Except.ok "unused") "q" "I will use add for this" "unused" "unused" "boom"
      (fun _ => "boom") ⟨"add", "adds two numbers"⟩ ⟨"add", "adds two numbers"⟩ rfl).1
      ⟨rfl, fun _ _ => rfl, by decide⟩,
    (c1_tool_failure_error_segment c1St c1Sess
      (fun _ _ => Except.ok "unused")
      (fun _ => Except.ok "TOOL_REQUEST: Add\nPARAMETERS: x=1") "q" "unused"
      "TOOL_REQUEST: Add\nPARAMETERS: x=1" "Add" "boom"
      (fun _ => "boom") ⟨"add", "adds two numbers"⟩ ⟨"add", "adds two numbers"⟩ rfl).2
      ⟨rfl, by decide, by decide, by decide, rfl⟩⟩

/-- Counterexample input for C2: one uncoercible value among coercible
key=value pairs. -/
def c2Line : String :=
  "TOOL_REQUEST: compound_interest\nPARAMETERS: principal=5000, years=thirteen, compounds_per_year=12"

/-- Counterexample for C2: the claim says the uncoercible key `years` ends
up absent from the mapping; the source's `except ValueError` branch instead
stores the raw value as a string, so `years` is present, mapped to the
string thirteen, while the other keys are coerced as usual. -/
theorem c2_counterexample :
    (parseTagged c2Line).parameters =
      [("principal", PyVal.int 5000), ("years", PyVal.str "thirteen"),
        ("compounds_per_year", PyVal.int 12)] ∧
    "years" ∈ (parseTagged c2Line).parameters.map Prod.fst := by
  decide

/-- C2 (amended): a coercion failure neither drops the key nor aborts the
scan — every key extracted from a PARAMETERS line is present in the
resulting mapping (keys present before stay present), a value that fails
its numeric parse is retained as its stripped string, and on the
counterexample line every key is present with the uncoercible one mapped
to a string. -/
theorem c2_uncoercible_value_kept (pairs : List (String × String))
    (d : List (String × PyVal)) (k : String) :
    (k ∈ (buildParamsInto d pairs).map Prod.fst ↔
      k ∈ d.map Prod.fst ∨ k ∈ pairs.map Prod.fst) ∧
    (∀ v : String, (stripStr v).data.contains '.' = false →
      pyIntParse (stripStr v) = none → coerceValue v = PyVal.str (stripStr v)) ∧
    (parseTagged c2Line).parameters =
      [("principal", PyVal.int 5000), ("years", PyVal.str "thirteen"),
        ("compounds_per_year", PyVal.int 12)] := by
  refine ⟨buildParamsInto_keys pairs d k, ?_, by decide⟩
  intro v hdot hint
  simp only [coerceValue, hdot, Bool.false_eq_true, if_false, hint]

/-- Witness theorem for C2. -/
theorem c2_witness :
    ("years" ∈ (buildParamsInto [] [("years", "thirteen")]).map Prod.fst ↔
      "years" ∈ ([] : List (String × PyVal)).map Prod.fst ∨
      "years" ∈ [("years", "thirteen")].map Prod.fst) ∧
    (stripStr "thirteen").data.contains '.' = false ∧
    pyIntParse (stripStr "thirteen") = none ∧
    coerceValue "thirteen" = PyVal.str (stripStr "thirteen") :=
  ⟨(c2_uncoercible_value_kept [("years", "thirteen")] [] "years").1,
    by decide, by decide,
    (c2_uncoercible_value_kept [("years", "thirteen")] [] "years").2.1 "thirteen"
      (by decide) (by decide)⟩

/-- Counterexample session for C4: the invocation of the first matching
tool raises, the next succeeds. -/
def c4Sess : Session :=
  ⟨fun n _ => if n = "alpha" then Except.error "tool exploded" else Except.ok "result-beta"⟩

/-- Counterexample state for C4: two catalog entries, both of whose names
occur in the first generation. -/
def c4St : ClientState := ⟨some c4Sess, [⟨"alpha", "first tool"⟩, ⟨"beta", "second tool"⟩]⟩

/-- Counterexample backend for C4. -/
def c4Back : List Message → Nat → Except String String :=
  fun _ _ => Except.ok "use Alpha and BETA"

/-- Counterexample for C4: the claim says the first matching entry and no
other is invoked; but when the first matching entry's invocation raises,
the Azure loop does not stop (the `break` sits inside the `try`), so a
second, distinct tool is invoked as well. -/
theorem c4_counterexample :
    (processQueryAzure c4St c4Back "q").toolCalls =
      [("alpha", []), ("beta", [])] ∧
    ("beta", ([] : List (String × PyVal))) ∈ (processQueryAzure c4St c4Back "q").toolCalls ∧
    ("beta" : String) ≠ "alpha" := by
  decide

/-- C4 (amended): the first matching catalog entry is always the first
tool invoked, with an empty parameter set; and when that invocation
succeeds it is the only invocation — on its failure the loop proceeds to
later matching entries. -/
theorem c4_first_match_wins (st : ClientState) (sess : Session)
    (aback : List Message → Nat → Except String String) (query resp : String)
    (t : Tool)
    (hsess : st.session = some sess)
    (hfirst : aback (azureMessages st.tools query) 0 = Except.ok resp)
    (hfind : st.tools.find? (azureMatches resp) = some t) :
    (processQueryAzure st aback query).toolCalls.head? =
      some (t.name, ([] : List (String × PyVal))) ∧
    (∀ r : String, sess.callTool t.name [] = Except.ok r →
      (processQueryAzure st aback query).toolCalls =
        [(t.name, ([] : List (String × PyVal)))]) := by
  rw [processQueryAzure_text st sess aback query resp hsess hfirst]
  exact ⟨azureToolLoop_head sess aback resp (azureMessages st.tools query) st.tools t hfind,
    fun r hok =>
      azureToolLoop_success sess aback resp (azureMessages st.tools query) st.tools t r hfind hok⟩

/-- Witness session for C4: the invocation succeeds. -/
def c4wSess : Session := ⟨fun _ _ => Except.ok "result"⟩

/-- Witness state for C4. -/
def c4wSt : ClientState := ⟨some c4wSess, [⟨"alpha", "first tool"⟩, ⟨"beta", "second tool"⟩]⟩

/-- Witness theorem for C4: on the success path the first matching entry is
the only tool invoked, with empty parameters. -/
theorem c4_witness :
    c4wSt.tools.find? (azureMatches "use Alpha and BETA") = some ⟨"alpha", "first tool"⟩ ∧
    (processQueryAzure c4wSt (fun _ _ => Except.ok "use Alpha and BETA") "q").toolCalls.head? =
      some ("alpha", ([] : List (String × PyVal))) ∧
    (processQueryAzure c4wSt (fun _ _ => Except.ok "use Alpha and BETA") "q").toolCalls =
      [("alpha", ([] : List (String × PyVal)))] :=
  ⟨by decide,
    (c4_first_match_wins c4wSt c4wSess (fun _ _ => Except.ok "use Alpha and BETA") "q"
      "use Alpha and BETA" ⟨"alpha", "first tool"⟩ rfl rfl (by decide)).1,
    (c4_first_match_wins c4wSt c4wSess (fun _ _ => Except.ok "use Alpha and BETA") "q"
      "use Alpha and BETA" ⟨"alpha", "first tool"⟩ rfl rfl (by decide)).2 "result" rfl⟩

/-- Counterexample session for C9 (never reached: the backend fails). -/
def c9Sess : Session := ⟨fun _ _ => Except.ok "unused"⟩

/-- Counterexample backend for C9: every attempt of every call fails. -/
def c9Back : List Message → Nat → Except String String :=
  fun _ _ => Except.error "backend down"

/-- Counterexample for C9: with an empty catalog the substring scan never
runs, so nothing raises and the result is the empty string — not a string
beginning with the error prefix the claim asserts. -/
theorem c9_counterexample :
    (getGptResponse (c9Back (azureMessages [] "q"))).result = GptResult.emptyList ∧
    (processQueryAzure ⟨some c9Sess, []⟩ c9Back "q").output = "" ∧
    strStartsWith (processQueryAzure ⟨some c9Sess, []⟩ c9Back "q").output
      "Error processing query:" = false := by
  decide

/-- C9 (amended): the gateway's exhausted-retries sentinel is the Python
empty list, distinct from empty text; when the first generation of the
Azure client yields it and the catalog is non-empty, the substring scan
calls `lower` on a list and the raised `AttributeError` is caught by the
outer handler, so the query returns a string beginning with the error
prefix, without raising and without any tool invocation; with an empty
catalog the scan never runs and the result is the empty string (covered by
the counterexample). -/
theorem c9_sentinel_empty_list (st : ClientState) (sess : Session)
    (aback : List Message → Nat → Except String String) (query : String)
    (err : List Message → Nat → String)
    (hsess : st.session = some sess)
    (hfail : ∀ msgs n, aback msgs n = Except.error (err msgs n))
    (hne : st.tools ≠ []) :
    (getGptResponse (aback (azureMessages st.tools query))).result = GptResult.emptyList ∧
    GptResult.emptyList ≠ GptResult.text "" ∧
    (processQueryAzure st aback query).output =
      "Error processing query: \x27list\x27 object has no attribute \x27lower\x27" ∧
    strStartsWith (processQueryAzure st aback query).output
      "Error processing query:" = true ∧
    (processQueryAzure st aback query).toolCalls = [] := by
  have hall := getGptResponse_allFail (aback (azureMessages st.tools query))
    (err (azureMessages st.tools query)) (fun n => hfail _ n)
  obtain ⟨os, tools⟩ := st
  simp only at hsess hne hall
  subst hsess
  refine ⟨by rw [hall], by decide, ?_⟩
  cases tools with
  | nil => exact absurd rfl hne
  | cons a rest =>
    have hrun : processQueryAzure ⟨some sess, a :: rest⟩ aback query =
        ⟨"Error processing query: \x27list\x27 object has no attribute \x27lower\x27",
          ⟨some sess, a :: rest⟩, 1, [], []⟩ := by
      simp only [processQueryAzure, hall]
    rw [hrun]
    refine ⟨rfl, ?_, rfl⟩
    show strStartsWith
      "Error processing query: \x27list\x27 object has no attribute \x27lower\x27"
      "Error processing query:" = true
    decide

/-- Witness state for C9: connected, one catalog entry. -/
def c9wSt : ClientState := ⟨some c9Sess, [⟨"add", "adds two numbers"⟩]⟩

/-- Witness theorem for C9 on a non-empty catalog. -/
theorem c9_witness :
    (getGptResponse (c9Back (azureMessages c9wSt.tools "q"))).result = GptResult.emptyList ∧
    GptResult.emptyList ≠ GptResult.text "" ∧
    (processQueryAzure c9wSt c9Back "q").output =
      "Error processing query: \x27list\x27 object has no attribute \x27lower\x27" ∧
    strStartsWith (processQueryAzure c9wSt c9Back "q").output
      "Error processing query:" = true ∧
    (processQueryAzure c9wSt c9Back "q").toolCalls = [] :=
  c9_sentinel_empty_list c9wSt c9Sess c9Back "q" (fun _ _ => "backend down") rfl
    (fun _ _ => rfl) (by decide)

end MCPWorkshop
